import Mathlib

/-!
Shallow embedding of the runs-on/snapshot core (package internal/snapshot):
the bridging state store (getVolumeInfoPath, saveVolumeInfo, loadVolumeInfo),
the snapshot locator and volume provisioner of RestoreSnapshot, the flow of
RestoreSnapshot after volume creation (error propagation and the deferred
cleanup), and the CreateSnapshot teardown flow.

Machine integers (int32 sizes, int64 timestamps) are modelled as Int: the
embedded code only compares them, never overflows them.  Strings are Lean
Strings; the character-level path sanitization works on List Char, the
representation underlying String.
-/

namespace RunsOnSnapshot

/-! ### Bridging state store: mount-point to state-file path -/

/-- Character action of Go `strings.ReplaceAll(mountPoint, "/", "-")` in
getVolumeInfoPath (snapshotter.go line 237). -/
def swapSlash (c : Char) : Char := if c = '/' then '-' else c

/-- Removal of leading '-' characters, the left half of `strings.Trim(s, "-")`. -/
def trimLeftDash (l : List Char) : List Char := l.dropWhile (fun c => c = '-')

/-- Go `strings.Trim(s, "-")`: strip trailing '-' (via reverse) then leading '-'. -/
def trimDash (l : List Char) : List Char :=
  trimLeftDash ((trimLeftDash l.reverse).reverse)

/-- snapshotter.go line 237:
`strings.Trim(strings.ReplaceAll(mountPoint, "/", "-"), "-")`. -/
def sanitizeMount (m : List Char) : List Char := trimDash (m.map swapSlash)

/-- getVolumeInfoPath (snapshotter.go lines 234-239):
`filepath.Join("/runs-on", fmt.Sprintf("snapshot-%s.json", sanitizedPath))`.
Join reduces to plain concatenation because the sanitized part contains no
path separator. -/
def getVolumeInfoPath (m : List Char) : List Char :=
  "/runs-on/snapshot-".toList ++ sanitizeMount m ++ ".json".toList

/-- String-level wrapper of getVolumeInfoPath. -/
def getVolumeInfoPathS (m : String) : String := String.mk (getVolumeInfoPath m.toList)

/-- Canonical mount points: absolute, more than just "/", no '-' anywhere, not
ending in '/' and not starting with "//".  On these the path mapping is
injective (claim C5, amended). -/
def isCanonicalMount (m : List Char) : Bool :=
  match m with
  | c :: t =>
    c == '/' && !t.isEmpty && (t.head? != some '/') && (t.getLast? != some '/')
      && (c :: t).all (fun x => !(x == '-'))
  | [] => false

/-! ### VolumeInfo and its JSON round trip -/

/-- A JSON scalar as used by the volume-info document. -/
inductive JValue where
  | jstr (s : String)
  | jbool (b : Bool)
deriving DecidableEq

/-- A JSON object: ordered field list. -/
abbrev JObj := List (String × JValue)

/-- VolumeInfo (snapshotter.go lines 87-94).  Go zero values stand for the
omitted optional fields: "" for attachment_id, false for new_volume. -/
structure VolumeInfo where
  volumeId : String
  deviceName : String
  mountPoint : String
  attachmentId : String
  newVolume : Bool
deriving DecidableEq

/-- `json.MarshalIndent` of VolumeInfo: the three mandatory string fields,
then attachment_id (tag omitempty: dropped when "") and new_volume
(tag omitempty: dropped when false). -/
def marshalVolumeInfo (v : VolumeInfo) : JObj :=
  [("volume_id", JValue.jstr v.volumeId),
   ("device_name", JValue.jstr v.deviceName),
   ("mount_point", JValue.jstr v.mountPoint)]
  ++ (if v.attachmentId = "" then [] else [("attachment_id", JValue.jstr v.attachmentId)])
  ++ (if v.newVolume then [("new_volume", JValue.jbool true)] else [])

/-- JSON object field lookup. -/
def jLookup (k : String) : JObj → Option JValue
  | [] => none
  | (k2, v) :: t => if k = k2 then some v else jLookup k t

/-- Read a string field; a missing or mistyped field decodes to Go's zero "". -/
def jGetStr (o : JObj) (k : String) : String :=
  match jLookup k o with
  | some (JValue.jstr s) => s
  | _ => ""

/-- Read a bool field; a missing or mistyped field decodes to Go's zero false. -/
def jGetBool (o : JObj) (k : String) : Bool :=
  match jLookup k o with
  | some (JValue.jbool b) => b
  | _ => false

/-- `json.Unmarshal` into VolumeInfo. -/
def unmarshalVolumeInfo (o : JObj) : VolumeInfo :=
  ⟨jGetStr o "volume_id", jGetStr o "device_name", jGetStr o "mount_point",
   jGetStr o "attachment_id", jGetBool o "new_volume"⟩

/-- The local filesystem holding the bridging state files, keyed by path. -/
abbrev Store := String → Option JObj

/-- saveVolumeInfo (snapshotter.go lines 171-189): unconditional overwrite of
the state file at getVolumeInfoPath(volumeInfo.MountPoint). -/
def saveVolumeInfo (st : Store) (v : VolumeInfo) : Store :=
  fun p => if p = getVolumeInfoPathS v.mountPoint then some (marshalVolumeInfo v) else st p

/-- loadVolumeInfo (snapshotter.go lines 192-205): read the state file for the
mount point; a missing file is an error (none). -/
def loadVolumeInfo (st : Store) (mountPoint : String) : Option VolumeInfo :=
  match st (getVolumeInfoPathS mountPoint) with
  | none => none
  | some o => some (unmarshalVolumeInfo o)

/-! ### Snapshot locator (RestoreSnapshot, part_001 lines 40-90) -/

/-- SnapshotDescriptor as read from the cloud API: id, creation timestamp
(StartTime, modelled as Int), recorded source-volume size (VolumeSize,
a nullable int32), completion status and tag set. -/
structure SnapshotDesc where
  snapshotId : String
  startTime : Int
  volumeSize : Option Int
  status : String
  tags : List (String × String)
deriving DecidableEq

/-- The two filter shapes RestoreSnapshot builds for DescribeSnapshots:
a status filter and a tag-equality filter. -/
inductive EC2Filter where
  | status (value : String)
  | tag (key : String) (value : String)
deriving DecidableEq

/-- EC2 filter semantics: a status filter requires equal status, a tag filter
requires the snapshot to carry that tag with that value. -/
def matchesFilter (s : SnapshotDesc) : EC2Filter → Bool
  | EC2Filter.status v => s.status == v
  | EC2Filter.tag k v => s.tags.lookup k == some v

/-- DescribeSnapshots restricted to own snapshots: filters are ANDed. -/
def describeSnapshots (cloud : List SnapshotDesc) (filters : List EC2Filter) :
    List SnapshotDesc :=
  cloud.filter (fun s => filters.all (matchesFilter s))

/-- The upstream configuration fields the embedded flows consume. -/
structure Config where
  gitBranch : String
  defaultBranch : String
  volumeSize : Int
  waitForCompletion : Bool
  version : String
  repository : String
  arch : String
  platform : String
  customTags : List (String × String)
deriving DecidableEq

/-- Tag key "runs-on-snapshot-branch" (snapshotter.go line 26). -/
def branchTagKey : String := "runs-on-snapshot-branch"

/-- defaultTags (snapshotter.go lines 156-168): version, repository, branch
(= the target git ref), arch, platform, then the custom tags verbatim. -/
def defaultTags (c : Config) : List (String × String) :=
  [("runs-on-snapshot-version", c.version),
   ("runs-on-snapshot-repository", c.repository),
   (branchTagKey, c.gitBranch),
   ("runs-on-snapshot-arch", c.arch),
   ("runs-on-snapshot-platform", c.platform)] ++ c.customTags

/-- The first DescribeSnapshots filter list (part_001 lines 41-46): the
completed-status filter followed by one tag filter per default tag. -/
def restoreFilters (c : Config) : List EC2Filter :=
  EC2Filter.status "completed" :: (defaultTags c).map (fun kv => EC2Filter.tag kv.1 kv.2)

/-- The fallback filter list (part_001 line 68): the element at index 0 (the
status filter) is overwritten with a branch-tag filter for the default
branch; every other filter, including the branch = target tag filter coming
from defaultTags, is kept. -/
def fallbackFilters (c : Config) : List EC2Filter :=
  (restoreFilters c).set 0 (EC2Filter.tag branchTagKey c.defaultBranch)

/-- The selection loop body (part_001 lines 60-64): replace the current best
when the candidate's StartTime is strictly After it. -/
def selStep (acc snap : SnapshotDesc) : SnapshotDesc :=
  if acc.startTime < snap.startTime then snap else acc

/-- The selection loop (part_001 lines 57-64): start from the first element,
scan the whole list. -/
def selectLatest : List SnapshotDesc → Option SnapshotDesc
  | [] => none
  | h :: t => some ((h :: t).foldl selStep h)

/-- The snapshot locator (part_001 lines 40-90): query with restoreFilters;
if no match and a default branch is configured, query with fallbackFilters;
otherwise no snapshot. -/
def locateSnapshot (cloud : List SnapshotDesc) (c : Config) : Option SnapshotDesc :=
  let snaps := describeSnapshots cloud (restoreFilters c)
  if snaps.isEmpty then
    if c.defaultBranch ≠ "" then
      selectLatest (describeSnapshots cloud (fallbackFilters c))
    else none
  else selectLatest snaps

/-- Modelled from the spec: the fallback query the spec and claim C2 describe,
"repeat the query with branch = default branch" — completed status kept, and
the branch tag filter (and only it) replaced by the default branch. -/
def fallbackFiltersPerSpec (c : Config) : List EC2Filter :=
  EC2Filter.status "completed" ::
    (defaultTags c).map (fun kv =>
      if kv.1 = branchTagKey then EC2Filter.tag branchTagKey c.defaultBranch
      else EC2Filter.tag kv.1 kv.2)

/-! ### Volume provisioner (RestoreSnapshot, part_001 lines 99-143) -/

/-- The two ways RestoreSnapshot creates the volume. -/
inductive ProvisionChoice where
  | fromSnapshot (snapshotId : String)
  | blank (size : Int)
deriving DecidableEq

/-- The provisioning decision (part_001 line 101): create from the located
snapshot iff one was located, it has a recorded size, and that size is at
least the configured target size; the second component is
volumeIsNewAndUnformatted (the new_volume flag). -/
def provision (latest : Option SnapshotDesc) (targetSize : Int) :
    ProvisionChoice × Bool :=
  match latest with
  | some snap =>
    match snap.volumeSize with
    | some sz =>
      if targetSize ≤ sz then (ProvisionChoice.fromSnapshot snap.snapshotId, false)
      else (ProvisionChoice.blank targetSize, true)
    | none => (ProvisionChoice.blank targetSize, true)
  | none => (ProvisionChoice.blank targetSize, true)

/-- Locator plus provisioner: what RestoreSnapshot decides to create. -/
def restoreProvisionChoice (cloud : List SnapshotDesc) (c : Config) :
    ProvisionChoice × Bool :=
  provision (locateSnapshot cloud c) c.volumeSize

/-! ### RestoreSnapshot after volume creation (part_001 lines 145-287) -/

/-- Go `strings.HasPrefix(mountPoint, "/var/lib/docker")`. -/
def isDockerMount (mp : String) : Bool :=
  "/var/lib/docker".toList.isPrefixOf mp.toList

/-- Success or failure of each operation RestoreSnapshot performs after the
volume has been created, in source order. -/
structure RestoreSteps where
  /-- line 162: VolumeAvailableWaiter.Wait -/
  waitAvailableOk : Bool
  /-- line 169: AttachVolume -/
  attachOk : Bool
  /-- line 181: VolumeInUseWaiter.Wait -/
  waitAttachOk : Bool
  /-- lines 195-200: DescribeVolumes reporting at least one attachment -/
  describeVolumesOk : Bool
  /-- line 207: systemctl stop docker (best-effort) -/
  stopDockerOk : Bool
  /-- line 214: defensive umount (best-effort) -/
  defensiveUnmountOk : Bool
  /-- line 222: lsblk (best-effort, but assigns the outer err variable) -/
  lsblkOk : Bool
  /-- line 245: saveVolumeInfo (logged only) -/
  saveOk : Bool
  /-- line 251: mkfs.ext4 -F -/
  mkfsOk : Bool
  /-- line 258: mkdir -p -/
  mkdirOk : Bool
  /-- line 263: mount -/
  mountOk : Bool
  /-- line 270: systemctl start docker -/
  startDockerOk : Bool
  /-- line 276: docker system info -/
  healthCheckOk : Bool
  /-- line 279: umount after a failed health check (logged only) -/
  healthFailUnmountOk : Bool
deriving DecidableEq

/-- The step at which the restore phase returns a fatal error. -/
inductive RestoreFailStep where
  | waitAvailable | attach | waitAttach | resolveDevice
  | mkfs | mkdir | mount | startDocker | healthCheck
deriving DecidableEq

/-- Outcome of the restore phase after volume creation. -/
inductive RestoreOutcome where
  | ok
  | fail (step : RestoreFailStep)
deriving DecidableEq

/-- What the post-creation part of RestoreSnapshot did. -/
structure RestoreAfterCreate where
  outcome : RestoreOutcome
  /-- whether the deferred cleanup (lines 145-157) called DeleteVolume -/
  deleteAttempted : Bool
  /-- whether saveVolumeInfo was invoked -/
  saveAttempted : Bool
  /-- whether the state file was actually (re)written -/
  recordWritten : Bool
deriving DecidableEq

/-- RestoreSnapshot from line 145 on.  The deferred cleanup deletes the new
volume iff the function-scope `err` variable is non-nil when the function
returns.  That variable is nil when the defer is registered; of all later
failures, only AttachVolume (line 169, `attachOutput, err := ...` at function
scope) and the in-use waiter (line 181, `err = ...`) assign it.  The available
waiter (line 162), the DescribeVolumes device resolution (line 195, descErr),
mkfs, mkdir, mount, systemctl start and docker system info (lines 251-282)
all use block-scoped `err :=`, so their failures leave the outer err nil.
The lsblk call (line 222, `lsblkOutput, err := ...` at function scope) is
non-fatal but does assign the outer err. -/
def restoreAfterCreate (mp : String) (newVol : Bool) (e : RestoreSteps) :
    RestoreAfterCreate :=
  if !e.waitAvailableOk then
    ⟨RestoreOutcome.fail RestoreFailStep.waitAvailable, false, false, false⟩
  else if !e.attachOk then
    ⟨RestoreOutcome.fail RestoreFailStep.attach, true, false, false⟩
  else if !e.waitAttachOk then
    ⟨RestoreOutcome.fail RestoreFailStep.waitAttach, true, false, false⟩
  else if !e.describeVolumesOk then
    ⟨RestoreOutcome.fail RestoreFailStep.resolveDevice, false, false, false⟩
  else
    let outerErrSet := !e.lsblkOk
    let written := e.saveOk
    if newVol && !e.mkfsOk then
      ⟨RestoreOutcome.fail RestoreFailStep.mkfs, outerErrSet, true, written⟩
    else if !e.mkdirOk then
      ⟨RestoreOutcome.fail RestoreFailStep.mkdir, outerErrSet, true, written⟩
    else if !e.mountOk then
      ⟨RestoreOutcome.fail RestoreFailStep.mount, outerErrSet, true, written⟩
    else if isDockerMount mp && !e.startDockerOk then
      ⟨RestoreOutcome.fail RestoreFailStep.startDocker, outerErrSet, true, written⟩
    else if isDockerMount mp && !e.healthCheckOk then
      ⟨RestoreOutcome.fail RestoreFailStep.healthCheck, outerErrSet, true, written⟩
    else
      ⟨RestoreOutcome.ok, outerErrSet, true, written⟩

/-- RestoreSteps with the saveOk field replaced. -/
def withSaveOk (e : RestoreSteps) (b : Bool) : RestoreSteps :=
  ⟨e.waitAvailableOk, e.attachOk, e.waitAttachOk, e.describeVolumesOk,
   e.stopDockerOk, e.defensiveUnmountOk, e.lsblkOk, b, e.mkfsOk, e.mkdirOk,
   e.mountOk, e.startDockerOk, e.healthCheckOk, e.healthFailUnmountOk⟩

/-! ### CreateSnapshot (part_000 lines 49-167) -/

/-- Success or failure of each operation CreateSnapshot performs. -/
structure CreateSteps where
  /-- lines 61-73: docker buildx prune (best-effort) -/
  pruneOk : Bool
  /-- line 76: systemctl stop docker (best-effort) -/
  stopDockerOk : Bool
  /-- line 82: umount -/
  umountOk : Bool
  /-- line 83: the df probe after a failed umount succeeded -/
  dfOk : Bool
  /-- line 84: the df output still lists the mount point -/
  dfShowsMounted : Bool
  /-- lines 93-98: CreateTags TTL re-arm (best-effort) -/
  ttlTagOk : Bool
  /-- line 104: DetachVolume -/
  detachOk : Bool
  /-- line 114: VolumeAvailableWaiter.Wait -/
  waitDetachOk : Bool
  /-- line 125: CreateSnapshot -/
  createSnapOk : Bool
  /-- line 152: SnapshotCompletedWaiter.Wait -/
  waitSnapshotOk : Bool
  /-- line 159: DeleteVolume (best-effort) -/
  deleteVolumeOk : Bool
deriving DecidableEq

/-- The step at which CreateSnapshot returns a fatal error. -/
inductive CreateFailStep where
  | loadInfo | unmount | detach | waitDetach | createSnap | waitSnapshot
deriving DecidableEq

/-- Which wait-policy branch CreateSnapshot logged (part_000 lines 141-147). -/
inductive WaitReport where
  | initialSnapshot
  | configuredWait
  | noWait
deriving DecidableEq

/-- What CreateSnapshot did. -/
structure CreateResult where
  result : Except CreateFailStep String
  /-- the bridging state store after the run -/
  store : Store
  /-- whether the SnapshotCompletedWaiter ran (the phase blocked) -/
  waitPerformed : Bool
  /-- which wait-policy branch was reported, if the run got that far -/
  reported : Option WaitReport
  /-- whether DeleteVolume was called on the source volume -/
  deleteAttempted : Bool

/-- CreateSnapshot (part_000 lines 49-167).  Docker prune/stop (lines 60-79)
and the TTL re-arm (lines 93-101) are best-effort and do not alter control
flow.  The unmount is fatal only when umount failed and the df probe both
succeeded and still lists the mount point (lines 82-90).  After snapshot
initiation, the completed waiter runs iff the loaded record's NewVolume flag
is set or WaitForCompletion is configured (lines 141-148); the no-wait branch
returns at line 147 before the DeleteVolume call at line 159, whose own
failure is logged only. -/
def createSnapshot (wfc : Bool) (st : Store) (mp : String) (sid : String)
    (e : CreateSteps) : CreateResult :=
  match loadVolumeInfo st mp with
  | none => ⟨Except.error CreateFailStep.loadInfo, st, false, none, false⟩
  | some info =>
    if !e.umountOk && e.dfOk && e.dfShowsMounted then
      ⟨Except.error CreateFailStep.unmount, st, false, none, false⟩
    else if !e.detachOk then
      ⟨Except.error CreateFailStep.detach, st, false, none, false⟩
    else if !e.waitDetachOk then
      ⟨Except.error CreateFailStep.waitDetach, st, false, none, false⟩
    else if !e.createSnapOk then
      ⟨Except.error CreateFailStep.createSnap, st, false, none, false⟩
    else if info.newVolume then
      if !e.waitSnapshotOk then
        ⟨Except.error CreateFailStep.waitSnapshot, st, true, some WaitReport.initialSnapshot, false⟩
      else
        ⟨Except.ok sid, st, true, some WaitReport.initialSnapshot, true⟩
    else if wfc then
      if !e.waitSnapshotOk then
        ⟨Except.error CreateFailStep.waitSnapshot, st, true, some WaitReport.configuredWait, false⟩
      else
        ⟨Except.ok sid, st, true, some WaitReport.configuredWait, true⟩
    else
      ⟨Except.ok sid, st, false, some WaitReport.noWait, false⟩

/-- CreateSteps with the deleteVolumeOk field replaced. -/
def withDeleteVolumeOk (e : CreateSteps) (b : Bool) : CreateSteps :=
  ⟨e.pruneOk, e.stopDockerOk, e.umountOk, e.dfOk, e.dfShowsMounted, e.ttlTagOk,
   e.detachOk, e.waitDetachOk, e.createSnapOk, e.waitSnapshotOk, b⟩

/-! ### Concrete instances used by counterexamples and witnesses -/

/-- A configuration targeting branch feature-x with default branch main. -/
def cfgFeatureX : Config :=
  ⟨"feature-x", "main", 40, false, "v1", "acme/widgets", "amd64", "linux", []⟩

/-- A completed snapshot carrying the full tag set with branch = main. -/
def snapMain : SnapshotDesc :=
  ⟨"snap-main", 100, some 40, "completed",
   [("runs-on-snapshot-version", "v1"), ("runs-on-snapshot-repository", "acme/widgets"),
    ("runs-on-snapshot-branch", "main"), ("runs-on-snapshot-arch", "amd64"),
    ("runs-on-snapshot-platform", "linux")]⟩

/-- Snapshots with creation times 1, 3, 3 for the selection witness. -/
def snapT1 : SnapshotDesc := ⟨"s1", 1, some 40, "completed", []⟩

/-- First snapshot carrying the maximal creation time 3. -/
def snapT3a : SnapshotDesc := ⟨"s3a", 3, some 40, "completed", []⟩

/-- Second snapshot carrying the maximal creation time 3. -/
def snapT3b : SnapshotDesc := ⟨"s3b", 3, some 40, "completed", []⟩

/-- All post-creation restore steps succeed. -/
def allRestoreOk : RestoreSteps :=
  ⟨true, true, true, true, true, true, true, true, true, true, true, true, true, true⟩

/-- All restore steps succeed except the volume-available waiter. -/
def restoreWaitAvailFails : RestoreSteps :=
  ⟨false, true, true, true, true, true, true, true, true, true, true, true, true, true⟩

/-- All restore steps succeed except AttachVolume. -/
def restoreAttachFails : RestoreSteps :=
  ⟨true, false, true, true, true, true, true, true, true, true, true, true, true, true⟩

/-- All restore steps succeed except the mount. -/
def restoreMountFails : RestoreSteps :=
  ⟨true, true, true, true, true, true, true, true, true, true, false, true, true, true⟩

/-- All create-phase steps succeed. -/
def allCreateOk : CreateSteps :=
  ⟨true, true, true, true, true, true, true, true, true, true, true⟩

/-- An empty bridging state store. -/
def emptyStore : Store := fun _ => none

/-- The record the restore phase leaves for /var/lib/docker: volume from a
snapshot (new_volume false), no attachment id recorded. -/
def dockerInfo : VolumeInfo := ⟨"vol-1", "/dev/nvme1n1", "/var/lib/docker", "", false⟩

/-- A store holding exactly the record for /var/lib/docker. -/
def dockerStore : Store := saveVolumeInfo emptyStore dockerInfo

/-! ### Theorems -/

/-- Claim C1: the provisioner creates the volume from the located snapshot
with new_volume = false exactly when a snapshot was located, it has a
recorded size, and that size is at least the target size; with no located
snapshot, no recorded size, or a too-small recorded size it creates a blank
volume of the target size with new_volume = true. -/
theorem c1_provision_decision (latest : Option SnapshotDesc) (T : Int) :
    (∀ s, latest = some s → ∀ sz, s.volumeSize = some sz → T ≤ sz →
        provision latest T = (ProvisionChoice.fromSnapshot s.snapshotId, false))
    ∧ (latest = none → provision latest T = (ProvisionChoice.blank T, true))
    ∧ (∀ s, latest = some s → s.volumeSize = none →
        provision latest T = (ProvisionChoice.blank T, true))
    ∧ (∀ s, latest = some s → ∀ sz, s.volumeSize = some sz → sz < T →
        provision latest T = (ProvisionChoice.blank T, true)) := by
  refine ⟨?_, ?_, ?_, ?_⟩
  · intro s hs sz hsz hT
    subst hs
    simp [provision, hsz, hT]
  · intro h
    subst h
    rfl
  · intro s hs hsz
    subst hs
    simp [provision, hsz]
  · intro s hs sz hsz hT
    subst hs
    simp [provision, hsz, not_le.mpr hT]

/-- Claim C1 witness: a located snapshot of recorded size 40 against target
size 40 is used, with new_volume = false. -/
theorem c1_provision_decision_witness :
    provision (some snapT3a) 40 = (ProvisionChoice.fromSnapshot "s3a", false) :=
  (c1_provision_decision (some snapT3a) 40).1 snapT3a rfl 40 rfl (by decide)

/-- Claim C2 (code bug): with target branch feature-x, default branch main,
and the cloud holding one completed snapshot fully tagged for branch main,
the locator finds nothing — the fallback query keeps the branch = feature-x
tag filter (only the status filter at index 0 was overwritten), so it can
never match a default-branch snapshot — and the restore falls through to a
blank volume.  The query the spec describes (completed, branch = main) would
have returned that snapshot. -/
theorem c2_fallback_eval :
    locateSnapshot [snapMain] cfgFeatureX = none
    ∧ describeSnapshots [snapMain] (fallbackFiltersPerSpec cfgFeatureX) = [snapMain]
    ∧ cfgFeatureX.defaultBranch ≠ cfgFeatureX.gitBranch
    ∧ snapMain.status = "completed"
    ∧ snapMain.tags.lookup branchTagKey = some cfgFeatureX.defaultBranch
    ∧ restoreProvisionChoice [snapMain] cfgFeatureX = (ProvisionChoice.blank 40, true) :=
  ⟨rfl, rfl, by decide, rfl, rfl, rfl⟩

/-- Claim C4 (code bug): when the volume-available waiter times out, the
restore phase returns a fatal error but the deferred cleanup does not delete
the just-created volume (the waiter's error only ever lived in a shadowed
local, so the outer err the defer inspects is still nil); the same holds for
a mount failure.  Deletion does fire for an AttachVolume failure, whose error
is assigned to the function-scope err. -/
theorem c4_cleanup_eval :
    restoreAfterCreate "/var/lib/docker" true restoreWaitAvailFails
      = ⟨RestoreOutcome.fail RestoreFailStep.waitAvailable, false, false, false⟩
    ∧ (restoreAfterCreate "/var/lib/docker" true restoreMountFails).outcome
        = RestoreOutcome.fail RestoreFailStep.mount
    ∧ (restoreAfterCreate "/var/lib/docker" true restoreMountFails).deleteAttempted = false
    ∧ (restoreAfterCreate "/var/lib/docker" true restoreAttachFails).deleteAttempted = true :=
  ⟨rfl, rfl, rfl, rfl⟩

/-- Claim C5 counterexample: the mount points /a/b and /a-b are distinct but
map to the same bridging-state file path, so the mapping is not injective. -/
theorem c5_collision :
    getVolumeInfoPathS "/a/b" = getVolumeInfoPathS "/a-b" ∧ "/a/b" ≠ "/a-b" :=
  ⟨rfl, by decide⟩

/-- Claim C6 counterexample: a create-phase run over a record with
new_volume = false and wait_for_completion unset returns success (the
snapshot id) while never attempting deletion of the source volume — it
returns immediately after snapshot initiation, before the DeleteVolume call. -/
theorem c6_no_delete_on_early_return :
    (createSnapshot false dockerStore "/var/lib/docker" "snap-9" allCreateOk).result
        = Except.ok "snap-9"
    ∧ (createSnapshot false dockerStore "/var/lib/docker" "snap-9" allCreateOk).deleteAttempted
        = false
    ∧ (createSnapshot false dockerStore "/var/lib/docker" "snap-9" allCreateOk).waitPerformed
        = false :=
  ⟨rfl, rfl, rfl⟩

/-- Claim C7 counterexample: in a restore run whose mount fails, the
VolumeRecord has already been written to the bridging state store — the save
happens after device resolution and before formatting and mounting, not after
their success. -/
theorem c7_record_written_before_mount :
    (restoreAfterCreate "/var/lib/docker" false restoreMountFails).outcome
        = RestoreOutcome.fail RestoreFailStep.mount
    ∧ (restoreAfterCreate "/var/lib/docker" false restoreMountFails).saveAttempted = true
    ∧ (restoreAfterCreate "/var/lib/docker" false restoreMountFails).recordWritten = true :=
  ⟨rfl, rfl, rfl⟩

/-- The selection loop computes the leftmost maximum: starting from a and
scanning t, the result splits a :: t into a strictly-smaller prefix, the
result itself, and a no-larger suffix. -/
theorem foldl_selStep_spec (t : List SnapshotDesc) :
    ∀ a : SnapshotDesc, ∃ l1 l2,
      a :: t = l1 ++ (List.foldl selStep a t) :: l2
      ∧ (∀ x ∈ l1, x.startTime < (List.foldl selStep a t).startTime)
      ∧ (∀ x ∈ a :: t, x.startTime ≤ (List.foldl selStep a t).startTime) := by
  induction t with
  | nil =>
    intro a
    exact ⟨[], [], rfl, by simp, by simp⟩
  | cons b t ih =>
    intro a
    rw [List.foldl_cons]
    by_cases hab : a.startTime < b.startTime
    · rw [show selStep a b = b from if_pos hab]
      obtain ⟨l1, l2, hdec, hlt, hle⟩ := ih b
      refine ⟨a :: l1, l2, by rw [List.cons_append, ← hdec], ?_, ?_⟩
      · intro x hx
        rcases List.mem_cons.mp hx with hx | hx
        · subst hx
          exact lt_of_lt_of_le hab (hle b (List.mem_cons_self b t))
        · exact hlt x hx
      · intro x hx
        rcases List.mem_cons.mp hx with hx | hx
        · subst hx
          exact le_of_lt (lt_of_lt_of_le hab (hle b (List.mem_cons_self b t)))
        · exact hle x hx
    · rw [show selStep a b = a from if_neg hab]
      obtain ⟨l1, l2, hdec, hlt, hle⟩ := ih a
      have hba : b.startTime ≤ a.startTime := le_of_not_lt hab
      cases l1 with
      | nil =>
        simp only [List.nil_append] at hdec
        have ha : a = List.foldl selStep a t := (List.cons.injEq _ _ _ _).mp hdec |>.1
        have ht : t = l2 := (List.cons.injEq _ _ _ _).mp hdec |>.2
        refine ⟨[], b :: l2, ?_, by simp, ?_⟩
        · simp [← ha, ← ht]
        · intro x hx
          rcases List.mem_cons.mp hx with hx | hx
          · subst hx
            exact le_of_eq (congrArg SnapshotDesc.startTime ha)
          · rcases List.mem_cons.mp hx with hx | hx
            · subst hx
              exact le_trans hba (hle a (List.mem_cons_self a t))
            · exact hle x (List.mem_cons_of_mem a hx)
      | cons c l1' =>
        have hac : a = c := (List.cons.injEq _ _ _ _).mp hdec |>.1
        have ht : t = l1' ++ (List.foldl selStep a t) :: l2 :=
          (List.cons.injEq _ _ _ _).mp hdec |>.2
        have hamem : a ∈ c :: l1' := by rw [hac]; exact List.mem_cons_self c l1'
        have halt : a.startTime < (List.foldl selStep a t).startTime := hlt a hamem
        refine ⟨a :: b :: l1', l2, ?_, ?_, ?_⟩
        · rw [List.cons_append, List.cons_append, ← ht]
        · intro x hx
          rcases List.mem_cons.mp hx with hx | hx
          · subst hx
            exact halt
          · rcases List.mem_cons.mp hx with hx | hx
            · subst hx
              exact lt_of_le_of_lt hba halt
            · exact hlt x (List.mem_cons_of_mem c hx)
        · intro x hx
          rcases List.mem_cons.mp hx with hx | hx
          · rw [hx]
            exact hle a (List.mem_cons_self a t)
          · rcases List.mem_cons.mp hx with hx | hx
            · rw [hx]
              exact le_trans hba (hle a (List.mem_cons_self a t))
            · exact hle x (List.mem_cons_of_mem a hx)

/-- Claim C3: for every non-empty list of tag-matching snapshots, in any
order, the locator's selection loop returns an element of the list whose
creation timestamp is the maximum, and it is the first element attaining that
maximum: everything strictly before it in the list has a strictly smaller
timestamp, and nothing in the list has a larger one. -/
theorem c3_latest_selection (l : List SnapshotDesc) (h : l ≠ []) :
    ∃ r l1 l2, selectLatest l = some r ∧ l = l1 ++ r :: l2
      ∧ (∀ x ∈ l1, x.startTime < r.startTime)
      ∧ (∀ x ∈ l, x.startTime ≤ r.startTime) := by
  cases l with
  | nil => exact absurd rfl h
  | cons a t =>
    have hsel : selectLatest (a :: t) = some (List.foldl selStep a t) := by
      simp [selectLatest, List.foldl_cons, selStep]
    obtain ⟨l1, l2, hdec, hlt, hle⟩ := foldl_selStep_spec t a
    exact ⟨List.foldl selStep a t, l1, l2, hsel, hdec, hlt, hle⟩

/-- Claim C3 witness: among snapshots with creation times 1, 3, 3 presented
with the time-1 snapshot first, the selection returns a maximal-time snapshot
that is the first such in the list. -/
theorem c3_latest_selection_witness :
    ∃ r l1 l2, selectLatest [snapT1, snapT3a, snapT3b] = some r
      ∧ [snapT1, snapT3a, snapT3b] = l1 ++ r :: l2
      ∧ (∀ x ∈ l1, x.startTime < r.startTime)
      ∧ (∀ x ∈ [snapT1, snapT3a, snapT3b], x.startTime ≤ r.startTime) :=
  c3_latest_selection [snapT1, snapT3a, snapT3b] (by decide)

/-- Claim C9: writing a VolumeRecord with the restore phase's save operation
and reading it back for the same mount point with the create phase's load
operation yields a record with identical volume id, device name, mount point
and new-volume flag. -/
theorem c9_roundtrip (st : Store) (v : VolumeInfo) :
    ∃ w, loadVolumeInfo (saveVolumeInfo st v) v.mountPoint = some w
      ∧ w.volumeId = v.volumeId
      ∧ w.deviceName = v.deviceName
      ∧ w.mountPoint = v.mountPoint
      ∧ w.newVolume = v.newVolume := by
  refine ⟨unmarshalVolumeInfo (marshalVolumeInfo v), ?_, ?_, ?_, ?_, ?_⟩
  · simp [loadVolumeInfo, saveVolumeInfo]
  · by_cases ha : v.attachmentId = "" <;>
      cases hn : v.newVolume <;>
      simp [unmarshalVolumeInfo, marshalVolumeInfo, jGetStr, jLookup, ha, hn]
  · by_cases ha : v.attachmentId = "" <;>
      cases hn : v.newVolume <;>
      simp [unmarshalVolumeInfo, marshalVolumeInfo, jGetStr, jLookup, ha, hn]
  · by_cases ha : v.attachmentId = "" <;>
      cases hn : v.newVolume <;>
      simp [unmarshalVolumeInfo, marshalVolumeInfo, jGetStr, jLookup, ha, hn]
  · by_cases ha : v.attachmentId = "" <;>
      cases hn : v.newVolume <;>
      simp [unmarshalVolumeInfo, marshalVolumeInfo, jGetBool, jLookup, ha, hn]

/-- Claim C10: the create phase never writes, overwrites or deletes any
bridging-state file: whatever the step outcomes and whether the run succeeds
or fails, the store after CreateSnapshot is exactly the store before it, so
what the restore phase left for the mount point is still loadable afterwards. -/
theorem c10_create_store_frame (wfc : Bool) (st : Store) (mp sid : String)
    (e : CreateSteps) :
    (createSnapshot wfc st mp sid e).store = st
    ∧ loadVolumeInfo (createSnapshot wfc st mp sid e).store mp = loadVolumeInfo st mp := by
  have hst : (createSnapshot wfc st mp sid e).store = st := by
    unfold createSnapshot
    cases h : loadVolumeInfo st mp with
    | none => rfl
    | some info =>
      repeat' split
      all_goals rfl
  exact ⟨hst, by rw [hst]⟩

/-- Claim C8: once the create phase reaches snapshot initiation, it blocks on
the snapshot-completed waiter iff the loaded record's new_volume flag is true
or the wait-for-completion flag is set; otherwise it returns immediately
after initiation with the snapshot id; and the branch taken is reported (the
three distinct log messages of part_000 lines 142-146). -/
theorem c8_wait_policy (wfc : Bool) (st : Store) (mp sid : String) (e : CreateSteps)
    (info : VolumeInfo)
    (hload : loadVolumeInfo st mp = some info)
    (hum : (!e.umountOk && e.dfOk && e.dfShowsMounted) = false)
    (hdet : e.detachOk = true) (hwd : e.waitDetachOk = true)
    (hcs : e.createSnapOk = true) :
    (createSnapshot wfc st mp sid e).waitPerformed = (info.newVolume || wfc)
    ∧ (createSnapshot wfc st mp sid e).reported
        = some (if info.newVolume then WaitReport.initialSnapshot
                else if wfc then WaitReport.configuredWait else WaitReport.noWait)
    ∧ ((info.newVolume || wfc) = false →
        (createSnapshot wfc st mp sid e).result = Except.ok sid) := by
  unfold createSnapshot
  rw [hload]
  simp only [hum, hdet, hwd, hcs, Bool.not_true, Bool.false_eq_true, if_false]
  cases hnv : info.newVolume <;> cases wfc <;> cases hws : e.waitSnapshotOk <;> simp

/-- Claim C8 witness: with new_volume = false and wait_for_completion unset,
the phase did not block, reported the no-wait branch, and returned the
snapshot id immediately. -/
theorem c8_wait_policy_witness :
    (createSnapshot false dockerStore "/var/lib/docker" "snap-9" allCreateOk).waitPerformed
        = (dockerInfo.newVolume || false)
    ∧ (createSnapshot false dockerStore "/var/lib/docker" "snap-9" allCreateOk).reported
        = some (if dockerInfo.newVolume then WaitReport.initialSnapshot
                else if false then WaitReport.configuredWait else WaitReport.noWait)
    ∧ ((dockerInfo.newVolume || false) = false →
        (createSnapshot false dockerStore "/var/lib/docker" "snap-9" allCreateOk).result
          = Except.ok "snap-9") :=
  c8_wait_policy false dockerStore "/var/lib/docker" "snap-9" allCreateOk dockerInfo
    rfl rfl rfl rfl rfl

/-- Claim C6 (amended): a create-phase run that blocked on snapshot
completion and returned success did attempt deletion of the source volume
afterwards, and the outcome of the phase — in particular the returned
snapshot id — never depends on whether that deletion succeeds. -/
theorem c6_delete_after_wait (wfc : Bool) (st : Store) (mp sid : String)
    (e : CreateSteps) (b : Bool) :
    ((createSnapshot wfc st mp sid e).waitPerformed = true →
      (∃ s, (createSnapshot wfc st mp sid e).result = Except.ok s) →
      (createSnapshot wfc st mp sid e).deleteAttempted = true)
    ∧ (createSnapshot wfc st mp sid (withDeleteVolumeOk e b)).result
        = (createSnapshot wfc st mp sid e).result := by
  constructor
  · unfold createSnapshot
    cases h : loadVolumeInfo st mp with
    | none =>
      intro _ hex
      obtain ⟨s, hs⟩ := hex
      simp at hs
    | some info =>
      repeat' split
      all_goals intro hw hex
      all_goals try rfl
      all_goals try (simp at hw)
      all_goals (obtain ⟨s, hs⟩ := hex; exact Except.noConfusion hs)
  · rfl

/-- Claim C6 (amended) witness: with wait_for_completion set, the successful
run attempted the deletion. -/
theorem c6_delete_after_wait_witness :
    (createSnapshot true dockerStore "/var/lib/docker" "snap-9" allCreateOk).deleteAttempted
      = true :=
  (c6_delete_after_wait true dockerStore "/var/lib/docker" "snap-9" allCreateOk true).1
    rfl ⟨"snap-9", rfl⟩

set_option maxHeartbeats 1000000 in
/-- Claim C7 (amended): in the restore phase the VolumeRecord write is
attempted exactly when the flow has survived the wait-available, attach,
attach-wait and device-resolution steps — that is, after device resolution
and before formatting, mounting and the health check, regardless of how those
later steps fare — and a failure of the write changes neither the phase's
outcome nor the cleanup behaviour. -/
theorem c7_save_position (mp : String) (newVol : Bool) (e : RestoreSteps) (b : Bool) :
    (restoreAfterCreate mp newVol e).saveAttempted
        = (e.waitAvailableOk && e.attachOk && e.waitAttachOk && e.describeVolumesOk)
    ∧ (restoreAfterCreate mp newVol (withSaveOk e b)).outcome
        = (restoreAfterCreate mp newVol e).outcome
    ∧ (restoreAfterCreate mp newVol (withSaveOk e b)).deleteAttempted
        = (restoreAfterCreate mp newVol e).deleteAttempted := by
  obtain ⟨f1, f2, f3, f4, f5, f6, f7, f8, f9, f10, f11, f12, f13, f14⟩ := e
  refine ⟨?_, ?_, ?_⟩ <;>
    · simp only [restoreAfterCreate, withSaveOk]
      repeat' split
      all_goals simp_all

/-- Dropping leading dashes is the identity when the head is not a dash. -/
theorem trimLeftDash_eq_self {l : List Char} (h : l.head? ≠ some '-') :
    trimLeftDash l = l := by
  cases l with
  | nil => rfl
  | cons c t =>
    have hc : c ≠ '-' := by
      intro hcc
      exact h (by simp [hcc])
    simp [trimLeftDash, hc]

/-- Trimming dashes is the identity when neither end is a dash. -/
theorem trimDash_eq_self {l : List Char} (h1 : l.head? ≠ some '-')
    (h2 : l.getLast? ≠ some '-') : trimDash l = l := by
  unfold trimDash
  have hrev : trimLeftDash l.reverse = l.reverse :=
    trimLeftDash_eq_self (by rw [List.head?_reverse]; exact h2)
  rw [hrev, List.reverse_reverse]
  exact trimLeftDash_eq_self h1

/-- Unpacking of the canonical-mount predicate. -/
theorem canonical_spec {m : List Char} (h : isCanonicalMount m = true) :
    ∃ t, m = '/' :: t ∧ t ≠ [] ∧ t.head? ≠ some '/' ∧ t.getLast? ≠ some '/'
      ∧ (∀ c ∈ t, c ≠ '-') := by
  cases m with
  | nil => exact absurd h (by simp [isCanonicalMount])
  | cons c t =>
    simp [isCanonicalMount] at h
    obtain ⟨⟨⟨⟨hc, hne⟩, hh⟩, hl⟩, hall⟩ := h
    subst hc
    exact ⟨t, rfl, hne, hh, hl, fun x hx => hall.2 x hx⟩

/-- swapSlash is injective away from '-'. -/
theorem swapSlash_inj {a b : Char} (ha : a ≠ '-') (hb : b ≠ '-')
    (h : swapSlash a = swapSlash b) : a = b := by
  unfold swapSlash at h
  by_cases h1 : a = '/'
  · by_cases h2 : b = '/'
    · rw [h1, h2]
    · rw [if_pos h1, if_neg h2] at h
      exact absurd h.symm hb
  · by_cases h2 : b = '/'
    · rw [if_neg h1, if_pos h2] at h
      exact absurd h ha
    · rw [if_neg h1, if_neg h2] at h
      exact h

/-- Mapping swapSlash is injective on dash-free character lists. -/
theorem map_swapSlash_inj : ∀ {t1 t2 : List Char},
    (∀ c ∈ t1, c ≠ '-') → (∀ c ∈ t2, c ≠ '-') →
    t1.map swapSlash = t2.map swapSlash → t1 = t2 := by
  intro t1
  induction t1 with
  | nil =>
    intro t2 _ _ h
    cases t2 with
    | nil => rfl
    | cons b t2' => exact absurd h (by simp)
  | cons a t1' ih =>
    intro t2 hd1 hd2 h
    cases t2 with
    | nil => exact absurd h (by simp)
    | cons b t2' =>
      simp only [List.map_cons, List.cons.injEq] at h
      have hab : a = b :=
        swapSlash_inj (hd1 a (List.mem_cons_self a t1')) (hd2 b (List.mem_cons_self b t2')) h.1
      have ht : t1' = t2' :=
        ih (fun c hc => hd1 c (List.mem_cons_of_mem a hc))
          (fun c hc => hd2 c (List.mem_cons_of_mem b hc)) h.2
      rw [hab, ht]

/-- getLast? ignores the head when the tail is nonempty. -/
theorem getLast?_cons_of_ne {a : Char} {l : List Char} (h : l ≠ []) :
    (a :: l).getLast? = l.getLast? := by
  cases l with
  | nil => exact absurd rfl h
  | cons b l2 => exact List.getLast?_cons_cons

/-- On a canonical mount point the sanitization is exactly swapSlash applied
to the part after the leading '/': nothing gets trimmed. -/
theorem sanitizeMount_canonical {t : List Char} (hne : t ≠ [])
    (hh : t.head? ≠ some '/') (hl : t.getLast? ≠ some '/')
    (hd : ∀ c ∈ t, c ≠ '-') :
    sanitizeMount ('/' :: t) = t.map swapSlash := by
  have hmap : ('/' :: t).map swapSlash = '-' :: t.map swapSlash := by
    simp [swapSlash]
  have hhm : (t.map swapSlash).head? ≠ some '-' := by
    rw [List.head?_map]
    cases t with
    | nil => simp
    | cons a t' =>
      simp only [List.head?_cons, Option.map_some']
      intro hcon
      have ha : swapSlash a = '-' := by
        exact (Option.some.injEq _ _).mp hcon
      unfold swapSlash at ha
      by_cases h1 : a = '/'
      · exact hh (by simp [h1])
      · rw [if_neg h1] at ha
        exact hd a (List.mem_cons_self a t') ha
  have hlm : ('-' :: t.map swapSlash).getLast? ≠ some '-' := by
    have hmapne : t.map swapSlash ≠ [] := by
      intro hcon
      exact hne (List.map_eq_nil_iff.mp hcon)
    rw [getLast?_cons_of_ne hmapne, List.getLast?_map]
    cases hlast : t.getLast? with
    | none => simp
    | some a =>
      simp only [Option.map_some']
      intro hcon
      have ha : swapSlash a = '-' := (Option.some.injEq _ _).mp hcon
      unfold swapSlash at ha
      by_cases h1 : a = '/'
      · exact hl (by rw [hlast, h1])
      · rw [if_neg h1] at ha
        exact hd a (List.mem_of_getLast?_eq_some hlast) ha
  unfold sanitizeMount
  rw [hmap]
  unfold trimDash
  have hrev : trimLeftDash ('-' :: t.map swapSlash).reverse = ('-' :: t.map swapSlash).reverse := by
    apply trimLeftDash_eq_self
    rw [List.head?_reverse]
    exact hlm
  rw [hrev, List.reverse_reverse]
  unfold trimLeftDash
  rw [List.dropWhile_cons]
  simp only [decide_eq_true_eq, if_pos rfl]
  exact trimLeftDash_eq_self hhm

/-- Character-level injectivity of the state-file path on canonical mounts. -/
theorem pathChars_inj {m1 m2 : List Char} (h1 : isCanonicalMount m1 = true)
    (h2 : isCanonicalMount m2 = true)
    (h : getVolumeInfoPath m1 = getVolumeInfoPath m2) : m1 = m2 := by
  obtain ⟨t1, hm1, hne1, hh1, hl1, hd1⟩ := canonical_spec h1
  obtain ⟨t2, hm2, hne2, hh2, hl2, hd2⟩ := canonical_spec h2
  subst hm1
  subst hm2
  unfold getVolumeInfoPath at h
  have h' := List.append_cancel_right h
  have h'' := List.append_cancel_left h'
  rw [sanitizeMount_canonical hne1 hh1 hl1 hd1,
    sanitizeMount_canonical hne2 hh2 hl2 hd2] at h''
  rw [map_swapSlash_inj hd1 hd2 h'']

/-- Claim C5 (amended): the mapping from mount point to state-file path is a
pure function of the mount point (deterministic), and on canonical mount
points — absolute, not just "/", free of '-', not starting with "//" and not
ending in '/' — it is injective: two such mount points share a state-file
path exactly when they are equal. -/
theorem c5_canonical_injective (m1 m2 : String)
    (h1 : isCanonicalMount m1.toList = true) (h2 : isCanonicalMount m2.toList = true) :
    getVolumeInfoPathS m1 = getVolumeInfoPathS m2 ↔ m1 = m2 := by
  constructor
  · intro h
    have hl : getVolumeInfoPath m1.toList = getVolumeInfoPath m2.toList :=
      congrArg String.toList h
    have hm := pathChars_inj h1 h2 hl
    exact String.ext hm
  · intro h
    rw [h]

/-- Claim C5 (amended) witness: for the two canonical mount points
/var/lib/docker and /home/runner the paths coincide exactly when the mount
points do — hence their paths differ. -/
theorem c5_canonical_injective_witness :
    (getVolumeInfoPathS "/var/lib/docker" = getVolumeInfoPathS "/home/runner"
      ↔ "/var/lib/docker" = "/home/runner") :=
  c5_canonical_injective "/var/lib/docker" "/home/runner" (by decide) (by decide)

end RunsOnSnapshot
